import Mathlib

/-
Shallow embedding of pkg/apis/nodeup/config.go (the nodeup configuration
assembler of the kops repository): the `Config` and `BootConfig` data model,
the role filters `filterHooks` / `filterFileAssets` / `containsRole`, and the
assembler `NewConfig` / `UsesInstanceIDForNodeName`.

The referenced kops API package (Cluster, InstanceGroup, HookSpec, ...) is not
part of the provided sources; its record shapes and the few helper methods the
assembler calls are modelled here, each marked in its doc comment.  Machine
integers do not occur; all data is strings, lists, options and booleans.
-/

/-- Instance-group roles are strings in the kops API; we keep that encoding. -/
abbrev InstanceGroupRole := String

/-- Role constant for control-plane instance groups. -/
def InstanceGroupRoleControlPlane : InstanceGroupRole := "ControlPlane"

/-- Role constant for worker-node instance groups. -/
def InstanceGroupRoleNode : InstanceGroupRole := "Node"

/-- Role constant for bastion instance groups. -/
def InstanceGroupRoleBastion : InstanceGroupRole := "Bastion"

/-- Role constant for dedicated API-server instance groups. -/
def InstanceGroupRoleAPIServer : InstanceGroupRole := "APIServer"

/-- Cloud-provider identifier for AWS (kops.CloudProviderAWS). -/
def CloudProviderAWS : String := "aws"

/-- Cloud-provider identifier for GCE (kops.CloudProviderGCE). -/
def CloudProviderGCE : String := "gce"

/-- Update policy applied when neither the instance group nor the cluster sets
one (kops.UpdatePolicyAutomatic). -/
def UpdatePolicyAutomatic : String := "automatic"

/-- Modelled from the spec: a hook entry of the cluster specification, carrying
a payload and the role list used by role filtering ("a hook with an empty role
list applies to all roles").  The kops HookSpec type is outside src/; payload
fields beyond the name and manifest are elided, the Roles field is exact. -/
structure HookSpec where
  Name : String := ""
  Manifest : String := ""
  Roles : List InstanceGroupRole := []
deriving DecidableEq

/-- Modelled from the spec: a file-asset entry of the cluster specification
with its role list ("analogous role filtering for file assets").  The kops
FileAssetSpec type is outside src/; payload fields beyond name, path and
content are elided, the Roles field is exact. -/
structure FileAssetSpec where
  Name : String := ""
  Path : String := ""
  Content : String := ""
  Roles : List InstanceGroupRole := []
deriving DecidableEq

/-- Modelled: a volume mount entry (kops.VolumeMountSpec, outside src/);
carried through the assembler unchanged, payload abbreviated. -/
structure VolumeMountSpec where
  Device : String := ""
deriving DecidableEq

/-- Modelled: kubelet configuration (kops.KubeletConfigSpec, outside src/);
carried through the assembler as an opaque value, payload abbreviated. -/
structure KubeletConfigSpec where
  KubeconfigPath : String := ""
  PodManifestPath : String := ""
deriving DecidableEq

/-- Modelled: API-server configuration (kops.KubeAPIServerConfig, outside
src/); copied into APIServerConfig as an opaque value, payload abbreviated. -/
structure KubeAPIServerConfig where
  Image : String := ""
deriving DecidableEq

/-- Modelled from the spec: presence of "an external cloud-controller-manager"
on the cluster (kops.CloudControllerManagerConfig, outside src/); only its
presence is consulted, payload abbreviated. -/
structure CloudControllerManagerConfig where
  Image : String := ""
deriving DecidableEq

/-- Modelled: AWS warm-pool settings (kops.WarmPoolSpec, outside src/). -/
structure WarmPoolSpec where
  MinSize : Nat := 0
  MaxSize : Option Nat := none
  EnableLifecycleHook : Bool := false
deriving DecidableEq

/-- Modelled: the AWS block of the cluster cloud-provider spec
(kops.AWSSpec, outside src/), restricted to the fields the assembler reads. -/
structure AWSSpec where
  DisableSecurityGroupIngress : Option Bool := none
  ElbSecurityGroup : Option String := none
  NodeIPFamilies : List String := []
  WarmPool : Option WarmPoolSpec := none
deriving DecidableEq

/-- Modelled: the GCE block of the cluster cloud-provider spec
(kops.GCESpec, outside src/), restricted to the fields the assembler reads. -/
structure GCESpec where
  Multizone : Option Bool := none
  NodeTags : Option String := none
  NodeInstancePrefix : Option String := none
deriving DecidableEq

/-- Modelled: the cluster cloud-provider spec (kops.CloudProviderSpec, outside
src/): at most one provider block is populated; providers other than AWS and
GCE are not consulted by the assembler and are elided. -/
structure CloudProviderSpec where
  AWS : Option AWSSpec := none
  GCE : Option GCESpec := none
deriving DecidableEq

/-- Modelled: the AmazonVPC networking block (outside src/); only its presence
is consulted. -/
structure AmazonVPCNetworkingSpec where
  ImageName : String := ""
deriving DecidableEq

/-- Modelled: the networking block of the cluster spec (outside src/),
restricted to the field the assembler reads. -/
structure NetworkingSpec where
  AmazonVPC : Option AmazonVPCNetworkingSpec := none
deriving DecidableEq

/-- Modelled: object metadata (name) of a kops API object (outside src/). -/
structure ObjectMeta where
  Name : String := ""
deriving DecidableEq

/-- Modelled from the spec: the ClusterSpecification ("cluster-wide settings,
a set of InstanceGroup specifications, hooks, file assets, networking and
provider-specific blocks"), restricted to the fields the assembler reads.
The Kubernetes version is kept as a (major, minor) pair, consumed only by the
version gate. -/
structure ClusterSpec where
  Hooks : List HookSpec := []
  FileAssets : List FileAssetSpec := []
  ContainerRuntime : String := ""
  CloudProvider : CloudProviderSpec := {}
  UpdatePolicy : Option String := none
  Networking : NetworkingSpec := {}
  ExternalCloudControllerManager : Option CloudControllerManagerConfig := none
  KubeAPIServer : Option KubeAPIServerConfig := none
  KubernetesVersion : Nat × Nat := (0, 0)
deriving DecidableEq

/-- Modelled: a kops Cluster object (outside src/): metadata plus spec. -/
structure Cluster where
  ObjectMeta : ObjectMeta := {}
  Spec : ClusterSpec := {}
deriving DecidableEq

/-- Modelled: the spec of a kops InstanceGroup (outside src/), restricted to
the fields the assembler reads. -/
structure InstanceGroupSpec where
  Role : InstanceGroupRole := ""
  Hooks : List HookSpec := []
  FileAssets : List FileAssetSpec := []
  SysctlParameters : List String := []
  VolumeMounts : List VolumeMountSpec := []
  MachineType : String := ""
  UpdatePolicy : Option String := none
  Kubelet : Option KubeletConfigSpec := none
  WarmPool : Option WarmPoolSpec := none
deriving DecidableEq

/-- Modelled: a kops InstanceGroup object (outside src/). -/
structure InstanceGroup where
  ObjectMeta : ObjectMeta := {}
  Spec : InstanceGroupSpec := {}
deriving DecidableEq

/-- Image is a docker image we should pre-load (source type). -/
structure Image where
  Name : String := ""
  Sources : List String := []
  Hash : String := ""
deriving DecidableEq

/-- StaticManifest is a generic static manifest (source type). -/
structure StaticManifest where
  Key : String := ""
  Path : String := ""
deriving DecidableEq

/-- APIServerConfig is additional configuration for nodes running an APIServer
(source type). -/
structure APIServerConfig where
  KubeAPIServer : Option KubeAPIServerConfig := none
  EncryptionConfigSecretHash : String := ""
  ServiceAccountPublicKeys : String := ""
deriving DecidableEq

/-- ConfigServerOptions holds the configuration for the configuration server
(source type). -/
structure ConfigServerOptions where
  Server : String := ""
  CACertificates : String := ""
deriving DecidableEq

/-- Modelled: containerd configuration (kops.ContainerdConfig, outside src/);
never set by the assembler, payload abbreviated. -/
structure ContainerdConfig where
  Version : String := ""
deriving DecidableEq

/-- Modelled: nvidia GPU configuration (kops.NvidiaGPUConfig, outside src/);
never set by the assembler, payload abbreviated. -/
structure NvidiaGPUConfig where
  Enabled : Bool := false
deriving DecidableEq

/-- Config is the configuration for the nodeup binary (source type).  Go maps
keyed by architecture or name are rendered as association lists; every field
defaults to its Go zero value. -/
structure Config where
  Assets : List (String × List String) := []
  Images : List (String × List Image) := []
  ClusterName : String := ""
  Channels : List String := []
  ApiserverAdditionalIPs : List String := []
  Packages : List String := []
  EtcdManifests : List String := []
  CAs : List (String × String) := []
  KeypairIDs : List (String × String) := []
  DefaultMachineType : Option String := none
  EnableLifecycleHook : Bool := false
  StaticManifests : List StaticManifest := []
  KubeletConfig : KubeletConfigSpec := {}
  SysctlParameters : List String := []
  UpdatePolicy : String := ""
  VolumeMounts : List VolumeMountSpec := []
  FileAssets : List FileAssetSpec := []
  Hooks : List (List HookSpec) := []
  ContainerRuntime : String := ""
  ContainerdConfig : Option ContainerdConfig := none
  APIServerConfig : Option APIServerConfig := none
  NvidiaGPU : Option NvidiaGPUConfig := none
  DisableSecurityGroupIngress : Option Bool := none
  ElbSecurityGroup : Option String := none
  NodeIPFamilies : List String := []
  UseInstanceIDForNodeName : Bool := false
  WarmPoolImages : List String := []
  Multizone : Option Bool := none
  NodeTags : Option String := none
  NodeInstancePrefix : Option String := none
deriving DecidableEq

/-- BootConfig is the configuration for the nodeup binary that might be too
big to fit in userdata (source type); every field defaults to its Go zero
value. -/
structure BootConfig where
  CloudProvider : String := ""
  ConfigBase : Option String := none
  ConfigServer : Option ConfigServerOptions := none
  APIServerIP : String := ""
  InstanceGroupName : String := ""
  InstanceGroupRole : InstanceGroupRole := ""
  NodeupConfigHash : String := ""
deriving DecidableEq

/-- Modelled from the spec: the cluster's "provider identity"
(kops Cluster.Spec.GetCloudProvider, outside src/): the identifier of the
populated provider block, empty when none is populated. -/
def ClusterSpec.GetCloudProvider (s : ClusterSpec) : String :=
  if s.CloudProvider.AWS.isSome then CloudProviderAWS
  else if s.CloudProvider.GCE.isSome then CloudProviderGCE
  else ""

/-- Modelled from the spec: the explicit Kubernetes-version gate
(kops Cluster.IsKubernetesLT, outside src/): the cluster's (major, minor)
version is lexicographically below the given one. -/
def Cluster.IsKubernetesLT (c : Cluster) (major minor : Nat) : Bool :=
  decide (c.Spec.KubernetesVersion.1 < major ∨
    (c.Spec.KubernetesVersion.1 = major ∧ c.Spec.KubernetesVersion.2 < minor))

/-- Modelled from the spec: "instance groups that host an API server"
(kops InstanceGroup.HasAPIServer, outside src/): control-plane groups and
dedicated API-server groups host an API server. -/
def InstanceGroup.HasAPIServer (g : InstanceGroup) : Bool :=
  g.Spec.Role == InstanceGroupRoleControlPlane ||
    g.Spec.Role == InstanceGroupRoleAPIServer

/-- Modelled from the spec: warm-pool defaults resolution
(kops WarmPoolSpec.ResolveDefaults, outside src/): the instance group's
warm-pool setting overrides the cluster-level one. -/
def resolveWarmPool (clusterWarmPool : Option WarmPoolSpec)
    (ig : InstanceGroup) : Option WarmPoolSpec :=
  if ig.Spec.WarmPool.isSome then ig.Spec.WarmPool else clusterWarmPool

/-- Modelled from the spec: whether a resolved warm pool is enabled
(kops WarmPoolSpec.IsEnabled, outside src/): absent means disabled, a present
pool is enabled unless its maximum size is explicitly zero. -/
def warmPoolIsEnabled : Option WarmPoolSpec → Bool
  | none => false
  | some w =>
    match w.MaxSize with
    | none => true
    | some n => decide (0 < n)

/-- UsesInstanceIDForNodeName (source): true when an external
cloud-controller-manager is configured and the cloud provider is AWS. -/
def UsesInstanceIDForNodeName (cluster : Cluster) : Bool :=
  cluster.Spec.ExternalCloudControllerManager.isSome &&
    (cluster.Spec.GetCloudProvider == CloudProviderAWS)

/-- containsRole (source): linear scan of a role list for the given role. -/
def containsRole (v : InstanceGroupRole) (list : List InstanceGroupRole) :
    Bool :=
  match list with
  | [] => false
  | x :: xs => if v == x then true else containsRole v xs

/-- filterFileAssets (source): keep a file asset when its role list is empty
or contains the instance-group role, clearing the role list on the retained
copy; the Go range loop copies each element, appended in input order. -/
def filterFileAssets (f : List FileAssetSpec) (role : InstanceGroupRole) :
    List FileAssetSpec :=
  match f with
  | [] => []
  | fileAsset :: rest =>
    if fileAsset.Roles.length > 0 && !containsRole role fileAsset.Roles then
      filterFileAssets rest role
    else
      { fileAsset with Roles := [] } :: filterFileAssets rest role

/-- filterHooks (source): keep a hook when its role list is empty or contains
the instance-group role, clearing the role list on the retained copy; the Go
range loop copies each element, appended in input order. -/
def filterHooks (h : List HookSpec) (role : InstanceGroupRole) :
    List HookSpec :=
  match h with
  | [] => []
  | hook :: rest =>
    if hook.Roles.length > 0 && !containsRole role hook.Roles then
      filterHooks rest role
    else
      { hook with Roles := [] } :: filterHooks rest role

/-- NewConfig (source): assemble the per-instance-group Config and BootConfig
from the cluster and instance group.  The Go function initialises both records
and then performs at most one conditional assignment per field; each field
below carries the final value of that Go field. -/
def NewConfig (cluster : Cluster) (instanceGroup : InstanceGroup) :
    Config × BootConfig :=
  let role := instanceGroup.Spec.Role
  let clusterHooks := filterHooks cluster.Spec.Hooks instanceGroup.Spec.Role
  let igHooks := filterHooks instanceGroup.Spec.Hooks instanceGroup.Spec.Role
  let config : Config :=
    { ClusterName := cluster.ObjectMeta.Name
      CAs := []
      KeypairIDs := []
      SysctlParameters := instanceGroup.Spec.SysctlParameters
      VolumeMounts := instanceGroup.Spec.VolumeMounts
      FileAssets :=
        filterFileAssets instanceGroup.Spec.FileAssets role ++
          filterFileAssets cluster.Spec.FileAssets role
      Hooks := [igHooks, clusterHooks]
      ContainerRuntime := cluster.Spec.ContainerRuntime
      EnableLifecycleHook :=
        match cluster.Spec.CloudProvider.AWS with
        | some aws =>
          let warmPool := resolveWarmPool aws.WarmPool instanceGroup
          warmPoolIsEnabled warmPool &&
            (warmPool.map WarmPoolSpec.EnableLifecycleHook).getD false
        | none => false
      DisableSecurityGroupIngress :=
        match cluster.Spec.CloudProvider.AWS with
        | some aws =>
          if instanceGroup.HasAPIServer || cluster.IsKubernetesLT 1 24 then
            aws.DisableSecurityGroupIngress
          else none
        | none => none
      ElbSecurityGroup :=
        match cluster.Spec.CloudProvider.AWS with
        | some aws =>
          if instanceGroup.HasAPIServer || cluster.IsKubernetesLT 1 24 then
            aws.ElbSecurityGroup
          else none
        | none => none
      NodeIPFamilies :=
        match cluster.Spec.CloudProvider.AWS with
        | some aws =>
          if instanceGroup.HasAPIServer || cluster.IsKubernetesLT 1 24 then
            aws.NodeIPFamilies
          else []
        | none => []
      Multizone :=
        match cluster.Spec.CloudProvider.GCE with
        | some gce => gce.Multizone
        | none => none
      NodeTags :=
        match cluster.Spec.CloudProvider.GCE with
        | some gce => gce.NodeTags
        | none => none
      NodeInstancePrefix :=
        match cluster.Spec.CloudProvider.GCE with
        | some ⟨_, _, nip⟩ => nip
        | none => none
      UpdatePolicy :=
        match instanceGroup.Spec.UpdatePolicy with
        | some p => p
        | none =>
          match cluster.Spec.UpdatePolicy with
          | some p => p
          | none => UpdatePolicyAutomatic
      DefaultMachineType :=
        if cluster.Spec.Networking.AmazonVPC.isSome then
          some ((instanceGroup.Spec.MachineType.splitOn ",").headD "")
        else none
      UseInstanceIDForNodeName := UsesInstanceIDForNodeName cluster
      KubeletConfig :=
        match instanceGroup.Spec.Kubelet with
        | some k => k
        | none => {}
      APIServerConfig :=
        if instanceGroup.HasAPIServer then
          some { KubeAPIServer := cluster.Spec.KubeAPIServer }
        else none }
  let bootConfig : BootConfig :=
    { CloudProvider := cluster.Spec.GetCloudProvider
      InstanceGroupName := instanceGroup.ObjectMeta.Name
      InstanceGroupRole := role }
  (config, bootConfig)

/-- Retained-copy shape of a hook: the role list cleared, everything else
unchanged (the assignment hook.Roles = nil in filterHooks). -/
def clearHookRoles (h : HookSpec) : HookSpec :=
  { h with Roles := [] }

/-- Retained-copy shape of a file asset: the role list cleared, everything
else unchanged (the assignment fileAsset.Roles = nil in filterFileAssets). -/
def clearFileAssetRoles (f : FileAssetSpec) : FileAssetSpec :=
  { f with Roles := [] }

/-- State-passing rendering of filterFileAssets: the Go range loop copies each
slice element into the loop variable, and the assignment fileAsset.Roles = nil
writes that copy, never the slice cell.  The first component is the backing
slice after the loop, the second the returned list. -/
def filterFileAssetsSt (f : List FileAssetSpec) (role : InstanceGroupRole) :
    List FileAssetSpec × List FileAssetSpec :=
  match f with
  | [] => ([], [])
  | cell :: rest =>
    let fileAsset := cell
    let p := filterFileAssetsSt rest role
    if fileAsset.Roles.length > 0 && !containsRole role fileAsset.Roles then
      (cell :: p.1, p.2)
    else
      (cell :: p.1, { fileAsset with Roles := [] } :: p.2)

/-- State-passing rendering of filterHooks: the Go range loop copies each
slice element into the loop variable, and the assignment hook.Roles = nil
writes that copy, never the slice cell.  The first component is the backing
slice after the loop, the second the returned list. -/
def filterHooksSt (h : List HookSpec) (role : InstanceGroupRole) :
    List HookSpec × List HookSpec :=
  match h with
  | [] => ([], [])
  | cell :: rest =>
    let hook := cell
    let p := filterHooksSt rest role
    if hook.Roles.length > 0 && !containsRole role hook.Roles then
      (cell :: p.1, p.2)
    else
      (cell :: p.1, { hook with Roles := [] } :: p.2)

/-- State-passing rendering of NewConfig: the input cluster and instance group
are threaded through the only loops that write to element copies (the role
filters), and the post-call values are returned next to the outputs.  All
other statements of NewConfig only read the inputs. -/
def NewConfigSt (cluster : Cluster) (instanceGroup : InstanceGroup) :
    (Cluster × InstanceGroup) × (Config × BootConfig) :=
  let role := instanceGroup.Spec.Role
  let pcH := filterHooksSt cluster.Spec.Hooks role
  let piH := filterHooksSt instanceGroup.Spec.Hooks role
  let piF := filterFileAssetsSt instanceGroup.Spec.FileAssets role
  let pcF := filterFileAssetsSt cluster.Spec.FileAssets role
  let cluster' :=
    { cluster with Spec :=
      { cluster.Spec with Hooks := pcH.1, FileAssets := pcF.1 } }
  let instanceGroup' :=
    { instanceGroup with Spec :=
      { instanceGroup.Spec with Hooks := piH.1, FileAssets := piF.1 } }
  ((cluster', instanceGroup'), NewConfig cluster' instanceGroup')

theorem containsRole_eq_true_iff (v : InstanceGroupRole)
    (l : List InstanceGroupRole) : containsRole v l = true ↔ v ∈ l := by
  induction l with
  | nil => simp [containsRole]
  | cons x xs ih =>
    by_cases h : v = x
    · simp [containsRole, h]
    · simp [containsRole, h, ih]

theorem mem_filterHooks (l : List HookSpec) (role : InstanceGroupRole)
    (g : HookSpec) : g ∈ filterHooks l role ↔
      ∃ h, h ∈ l ∧ (h.Roles = [] ∨ role ∈ h.Roles) ∧ g = clearHookRoles h := by
  induction l with
  | nil => simp [filterHooks]
  | cons x xs ih =>
    by_cases hkeep : x.Roles.length > 0 ∧ ¬ containsRole role x.Roles = true
    · have hx : ¬ (x.Roles = [] ∨ role ∈ x.Roles) := by
        rcases hkeep with ⟨h1, h2⟩
        rintro (h3 | h3)
        · rw [h3] at h1; simp at h1
        · exact h2 ((containsRole_eq_true_iff role x.Roles).mpr h3)
      have : filterHooks (x :: xs) role = filterHooks xs role := by
        simp [filterHooks, hkeep.1, hkeep.2]
      rw [this, ih]
      constructor
      · rintro ⟨h, hmem, hk, he⟩; exact ⟨h, List.mem_cons_of_mem _ hmem, hk, he⟩
      · rintro ⟨h, hmem, hk, he⟩
        rcases List.mem_cons.mp hmem with rfl | hmem
        · exact absurd hk hx
        · exact ⟨h, hmem, hk, he⟩
    · have hx : x.Roles = [] ∨ role ∈ x.Roles := by
        by_cases h1 : x.Roles = []
        · exact Or.inl h1
        · refine Or.inr ?_
          have h2 : x.Roles.length > 0 := List.length_pos.mpr h1
          have h3 : containsRole role x.Roles = true := by
            by_contra h4
            exact hkeep ⟨h2, h4⟩
          exact (containsRole_eq_true_iff role x.Roles).mp h3
      have : filterHooks (x :: xs) role =
          { x with Roles := [] } :: filterHooks xs role := by
        rcases hx with h1 | h1
        · simp [filterHooks, h1]
        · have h2 : containsRole role x.Roles = true :=
            (containsRole_eq_true_iff role x.Roles).mpr h1
          simp [filterHooks, h2]
      rw [this]
      simp only [List.mem_cons, ih]
      constructor
      · rintro (rfl | ⟨h, hmem, hk, he⟩)
        · exact ⟨x, Or.inl rfl, hx, rfl⟩
        · exact ⟨h, Or.inr hmem, hk, he⟩
      · rintro ⟨h, hmem, hk, he⟩
        rcases hmem with rfl | hmem
        · exact Or.inl he
        · exact Or.inr ⟨h, hmem, hk, he⟩

theorem mem_filterFileAssets (l : List FileAssetSpec)
    (role : InstanceGroupRole) (g : FileAssetSpec) :
    g ∈ filterFileAssets l role ↔
      ∃ h, h ∈ l ∧ (h.Roles = [] ∨ role ∈ h.Roles) ∧
        g = clearFileAssetRoles h := by
  induction l with
  | nil => simp [filterFileAssets]
  | cons x xs ih =>
    by_cases hkeep : x.Roles.length > 0 ∧ ¬ containsRole role x.Roles = true
    · have hx : ¬ (x.Roles = [] ∨ role ∈ x.Roles) := by
        rcases hkeep with ⟨h1, h2⟩
        rintro (h3 | h3)
        · rw [h3] at h1; simp at h1
        · exact h2 ((containsRole_eq_true_iff role x.Roles).mpr h3)
      have : filterFileAssets (x :: xs) role = filterFileAssets xs role := by
        simp [filterFileAssets, hkeep.1, hkeep.2]
      rw [this, ih]
      constructor
      · rintro ⟨h, hmem, hk, he⟩; exact ⟨h, List.mem_cons_of_mem _ hmem, hk, he⟩
      · rintro ⟨h, hmem, hk, he⟩
        rcases List.mem_cons.mp hmem with rfl | hmem
        · exact absurd hk hx
        · exact ⟨h, hmem, hk, he⟩
    · have hx : x.Roles = [] ∨ role ∈ x.Roles := by
        by_cases h1 : x.Roles = []
        · exact Or.inl h1
        · refine Or.inr ?_
          have h2 : x.Roles.length > 0 := List.length_pos.mpr h1
          have h3 : containsRole role x.Roles = true := by
            by_contra h4
            exact hkeep ⟨h2, h4⟩
          exact (containsRole_eq_true_iff role x.Roles).mp h3
      have : filterFileAssets (x :: xs) role =
          { x with Roles := [] } :: filterFileAssets xs role := by
        rcases hx with h1 | h1
        · simp [filterFileAssets, h1]
        · have h2 : containsRole role x.Roles = true :=
            (containsRole_eq_true_iff role x.Roles).mpr h1
          simp [filterFileAssets, h2]
      rw [this]
      simp only [List.mem_cons, ih]
      constructor
      · rintro (rfl | ⟨h, hmem, hk, he⟩)
        · exact ⟨x, Or.inl rfl, hx, rfl⟩
        · exact ⟨h, Or.inr hmem, hk, he⟩
      · rintro ⟨h, hmem, hk, he⟩
        rcases hmem with rfl | hmem
        · exact Or.inl he
        · exact Or.inr ⟨h, hmem, hk, he⟩

theorem filterHooksSt_fst (l : List HookSpec) (role : InstanceGroupRole) :
    (filterHooksSt l role).1 = l := by
  induction l with
  | nil => rfl
  | cons x xs ih =>
    simp only [filterHooksSt]
    split <;> simp [ih]

theorem filterHooksSt_snd (l : List HookSpec) (role : InstanceGroupRole) :
    (filterHooksSt l role).2 = filterHooks l role := by
  induction l with
  | nil => rfl
  | cons x xs ih =>
    simp only [filterHooksSt, filterHooks]
    split <;> simp_all

theorem filterFileAssetsSt_fst (l : List FileAssetSpec)
    (role : InstanceGroupRole) : (filterFileAssetsSt l role).1 = l := by
  induction l with
  | nil => rfl
  | cons x xs ih =>
    simp only [filterFileAssetsSt]
    split <;> simp [ih]

theorem filterFileAssetsSt_snd (l : List FileAssetSpec)
    (role : InstanceGroupRole) :
    (filterFileAssetsSt l role).2 = filterFileAssets l role := by
  induction l with
  | nil => rfl
  | cons x xs ih =>
    simp only [filterFileAssetsSt, filterFileAssets]
    split <;> simp_all

theorem NewConfigSt_fst (cluster : Cluster) (instanceGroup : InstanceGroup) :
    (NewConfigSt cluster instanceGroup).1 = (cluster, instanceGroup) := by
  simp [NewConfigSt, filterHooksSt_fst, filterFileAssetsSt_fst]

theorem NewConfigSt_snd (cluster : Cluster) (instanceGroup : InstanceGroup) :
    (NewConfigSt cluster instanceGroup).2 =
      NewConfig cluster instanceGroup := by
  simp [NewConfigSt, filterHooksSt_fst, filterFileAssetsSt_fst]

/-- Sample cluster used in closed witness statements. -/
def sampleCluster : Cluster :=
  { ObjectMeta := { Name := "example.k8s.local" }
    Spec :=
      { Hooks :=
          [{ Name := "all-roles-hook" },
           { Name := "cp-hook", Roles := [InstanceGroupRoleControlPlane] }]
        FileAssets := [{ Name := "all-asset", Path := "/a" }]
        ContainerRuntime := "containerd"
        CloudProvider := { AWS := some {} }
        ExternalCloudControllerManager := some {}
        KubernetesVersion := (1, 28) } }

/-- Sample worker instance group used in closed witness statements. -/
def sampleIG : InstanceGroup :=
  { ObjectMeta := { Name := "nodes" }
    Spec := { Role := InstanceGroupRoleNode
              MachineType := "m5.large,m5.xlarge" } }

/-- GCE cluster on Kubernetes 1.30 whose node-tagging block is populated. -/
def gceCluster : Cluster :=
  { Spec :=
      { CloudProvider :=
          { GCE := some { Multizone := some true
                          NodeTags := some "gce-node-tag"
                          NodeInstancePrefix := some "nodes" } }
        KubernetesVersion := (1, 30) } }

/-- Worker instance group with no API server. -/
def workerIG : InstanceGroup :=
  { Spec := { Role := InstanceGroupRoleNode } }

/-- Instance group whose update policy is explicitly the empty string. -/
def emptyPolicyIG : InstanceGroup :=
  { Spec := { Role := InstanceGroupRoleNode, UpdatePolicy := some "" } }

/-- C1 counterexample: on a concrete cluster and instance group, the
BootConfig returned by NewConfig has ConfigServer unset and NodeupConfigHash
empty, refuting the claim that these fields are populated. -/
theorem NewConfig_bootConfig_counterexample :
    (NewConfig sampleCluster sampleIG).2.ConfigServer = none ∧
      (NewConfig sampleCluster sampleIG).2.NodeupConfigHash = "" :=
  ⟨rfl, rfl⟩

/-- C1 (amended): for every cluster and instance group, the BootConfig
returned by NewConfig carries exactly the provider identity, the
instance-group name and the role; ConfigBase, ConfigServer, APIServerIP and
NodeupConfigHash are left at their zero values, to be filled in by later
stages. -/
theorem NewConfig_bootConfig_fields (cluster : Cluster)
    (instanceGroup : InstanceGroup) :
    (NewConfig cluster instanceGroup).2 =
      { CloudProvider := cluster.Spec.GetCloudProvider
        ConfigBase := none
        ConfigServer := none
        APIServerIP := ""
        InstanceGroupName := instanceGroup.ObjectMeta.Name
        InstanceGroupRole := instanceGroup.Spec.Role
        NodeupConfigHash := "" } :=
  rfl

/-- C3: every hook and every file asset retained by the role filter has its
Roles field cleared in the output, whatever the input role list was. -/
theorem roleFilter_clears_roles :
    (∀ (l : List HookSpec) (role : InstanceGroupRole) (g : HookSpec),
        g ∈ filterHooks l role → g.Roles = []) ∧
    (∀ (l : List FileAssetSpec) (role : InstanceGroupRole) (g : FileAssetSpec),
        g ∈ filterFileAssets l role → g.Roles = []) := by
  constructor
  · intro l role g hg
    obtain ⟨h, _, _, rfl⟩ := (mem_filterHooks l role g).mp hg
    rfl
  · intro l role g hg
    obtain ⟨h, _, _, rfl⟩ := (mem_filterFileAssets l role g).mp hg
    rfl

/-- C3 witness: the hook retained from a concrete singleton list has an empty
role list. -/
theorem roleFilter_clears_roles_witness :
    HookSpec.Roles { Name := "w", Manifest := "m" } = [] :=
  roleFilter_clears_roles.1
    [{ Name := "w", Manifest := "m", Roles := [InstanceGroupRoleNode] }]
    InstanceGroupRoleNode { Name := "w", Manifest := "m" } (by decide)

/-- C4: NewConfig is deterministic: equal cluster and instance-group inputs
produce equal Config and BootConfig values. -/
theorem NewConfig_deterministic (c c' : Cluster) (ig ig' : InstanceGroup)
    (hc : c = c') (hig : ig = ig') : NewConfig c ig = NewConfig c' ig' := by
  subst hc; subst hig; rfl

/-- C4 witness: determinism applied at a concrete cluster and instance
group. -/
theorem NewConfig_deterministic_witness :
    NewConfig sampleCluster sampleIG = NewConfig sampleCluster sampleIG :=
  NewConfig_deterministic sampleCluster sampleCluster sampleIG sampleIG rfl rfl

/-- C5: the Config's UseInstanceIDForNodeName flag equals
UsesInstanceIDForNodeName of the cluster, which holds exactly when an
external cloud-controller-manager is configured and the cloud provider is
AWS. -/
theorem NewConfig_useInstanceIDForNodeName (cluster : Cluster)
    (instanceGroup : InstanceGroup) :
    (NewConfig cluster instanceGroup).1.UseInstanceIDForNodeName =
        UsesInstanceIDForNodeName cluster ∧
      UsesInstanceIDForNodeName cluster =
        (cluster.Spec.ExternalCloudControllerManager.isSome &&
          (cluster.Spec.GetCloudProvider == CloudProviderAWS)) :=
  ⟨rfl, rfl⟩

/-- C6: DefaultMachineType is the first comma-separated element of the
instance group's MachineType exactly when the cluster networking configures
AmazonVPC, and is unset otherwise. -/
theorem NewConfig_defaultMachineType (cluster : Cluster)
    (instanceGroup : InstanceGroup) :
    (NewConfig cluster instanceGroup).1.DefaultMachineType =
      (if cluster.Spec.Networking.AmazonVPC.isSome then
        some ((instanceGroup.Spec.MachineType.splitOn ",").headD "")
      else none) :=
  rfl

/-- C7: the Config carries an APIServerConfig holding the cluster's
KubeAPIServer configuration exactly when the instance group hosts an API
server, and carries none otherwise. -/
theorem NewConfig_apiServerConfig (cluster : Cluster)
    (instanceGroup : InstanceGroup) :
    (NewConfig cluster instanceGroup).1.APIServerConfig =
        (if instanceGroup.HasAPIServer then
          some { KubeAPIServer := cluster.Spec.KubeAPIServer }
        else none) ∧
      ((NewConfig cluster instanceGroup).1.APIServerConfig).isSome =
        instanceGroup.HasAPIServer := by
  refine ⟨rfl, ?_⟩
  by_cases h : instanceGroup.HasAPIServer = true
  · simp [NewConfig, h]
  · simp [NewConfig, Bool.eq_false_iff.mpr h]

/-- Cluster with every field at its zero value. -/
def emptyCluster : Cluster := {}

/-- C2: the role filter retains exactly the elements whose role list is empty
or contains the instance-group role (as the copy with the role list cleared)
and excludes all others, for hooks and file assets alike; consequently every
hook or file asset in the assembled Config stems from such a retained element,
and a cluster hook or file asset with no roles appears in every instance
group's Config. -/
theorem roleFilter_semantics :
    (∀ (l : List HookSpec) (role : InstanceGroupRole) (h : HookSpec),
        h ∈ l → (h.Roles = [] ∨ role ∈ h.Roles) →
        clearHookRoles h ∈ filterHooks l role) ∧
    (∀ (l : List HookSpec) (role : InstanceGroupRole) (g : HookSpec),
        g ∈ filterHooks l role →
        ∃ h, h ∈ l ∧ (h.Roles = [] ∨ role ∈ h.Roles) ∧
          g = clearHookRoles h) ∧
    (∀ (l : List FileAssetSpec) (role : InstanceGroupRole) (h : FileAssetSpec),
        h ∈ l → (h.Roles = [] ∨ role ∈ h.Roles) →
        clearFileAssetRoles h ∈ filterFileAssets l role) ∧
    (∀ (l : List FileAssetSpec) (role : InstanceGroupRole)
        (g : FileAssetSpec), g ∈ filterFileAssets l role →
        ∃ h, h ∈ l ∧ (h.Roles = [] ∨ role ∈ h.Roles) ∧
          g = clearFileAssetRoles h) ∧
    (∀ (cluster : Cluster) (ig : InstanceGroup) (hk : HookSpec),
        hk ∈ ((NewConfig cluster ig).1.Hooks).flatten →
        ∃ h, (h ∈ cluster.Spec.Hooks ∨ h ∈ ig.Spec.Hooks) ∧
          (h.Roles = [] ∨ ig.Spec.Role ∈ h.Roles) ∧ hk = clearHookRoles h) ∧
    (∀ (cluster : Cluster) (ig : InstanceGroup) (h : HookSpec),
        h ∈ cluster.Spec.Hooks → h.Roles = [] →
        clearHookRoles h ∈ ((NewConfig cluster ig).1.Hooks).flatten) ∧
    (∀ (cluster : Cluster) (ig : InstanceGroup) (fa : FileAssetSpec),
        fa ∈ (NewConfig cluster ig).1.FileAssets →
        ∃ h, (h ∈ cluster.Spec.FileAssets ∨ h ∈ ig.Spec.FileAssets) ∧
          (h.Roles = [] ∨ ig.Spec.Role ∈ h.Roles) ∧
          fa = clearFileAssetRoles h) ∧
    (∀ (cluster : Cluster) (ig : InstanceGroup) (fa : FileAssetSpec),
        fa ∈ cluster.Spec.FileAssets → fa.Roles = [] →
        clearFileAssetRoles fa ∈ (NewConfig cluster ig).1.FileAssets) := by
  refine ⟨?_, ?_, ?_, ?_, ?_, ?_, ?_, ?_⟩
  · intro l role h hm hk
    exact (mem_filterHooks l role _).mpr ⟨h, hm, hk, rfl⟩
  · intro l role g hg
    exact (mem_filterHooks l role g).mp hg
  · intro l role h hm hk
    exact (mem_filterFileAssets l role _).mpr ⟨h, hm, hk, rfl⟩
  · intro l role g hg
    exact (mem_filterFileAssets l role g).mp hg
  · intro cluster ig hk hmem
    have hH : (NewConfig cluster ig).1.Hooks =
        [filterHooks ig.Spec.Hooks ig.Spec.Role,
         filterHooks cluster.Spec.Hooks ig.Spec.Role] := rfl
    rw [hH] at hmem
    simp only [List.flatten_cons, List.flatten_nil, List.append_nil,
      List.mem_append] at hmem
    rcases hmem with hm | hm
    · obtain ⟨h, hmem2, hkp, he⟩ := (mem_filterHooks _ _ _).mp hm
      exact ⟨h, Or.inr hmem2, hkp, he⟩
    · obtain ⟨h, hmem2, hkp, he⟩ := (mem_filterHooks _ _ _).mp hm
      exact ⟨h, Or.inl hmem2, hkp, he⟩
  · intro cluster ig h hmem hroles
    have hH : (NewConfig cluster ig).1.Hooks =
        [filterHooks ig.Spec.Hooks ig.Spec.Role,
         filterHooks cluster.Spec.Hooks ig.Spec.Role] := rfl
    rw [hH]
    simp only [List.flatten_cons, List.flatten_nil, List.append_nil,
      List.mem_append]
    exact Or.inr ((mem_filterHooks _ _ _).mpr ⟨h, hmem, Or.inl hroles, rfl⟩)
  · intro cluster ig fa hmem
    have hF : (NewConfig cluster ig).1.FileAssets =
        filterFileAssets ig.Spec.FileAssets ig.Spec.Role ++
          filterFileAssets cluster.Spec.FileAssets ig.Spec.Role := rfl
    rw [hF] at hmem
    rcases List.mem_append.mp hmem with hm | hm
    · obtain ⟨h, hmem2, hkp, he⟩ := (mem_filterFileAssets _ _ _).mp hm
      exact ⟨h, Or.inr hmem2, hkp, he⟩
    · obtain ⟨h, hmem2, hkp, he⟩ := (mem_filterFileAssets _ _ _).mp hm
      exact ⟨h, Or.inl hmem2, hkp, he⟩
  · intro cluster ig fa hmem hroles
    have hF : (NewConfig cluster ig).1.FileAssets =
        filterFileAssets ig.Spec.FileAssets ig.Spec.Role ++
          filterFileAssets cluster.Spec.FileAssets ig.Spec.Role := rfl
    rw [hF]
    refine List.mem_append.mpr (Or.inr ?_)
    exact (mem_filterFileAssets _ _ _).mpr ⟨fa, hmem, Or.inl hroles, rfl⟩

/-- C2 witness: a hook whose role list contains the worker role is retained
(with roles cleared) by the filter at the worker role on a concrete list. -/
theorem roleFilter_semantics_witness :
    clearHookRoles { Name := "cw", Roles := [InstanceGroupRoleNode] } ∈
      filterHooks [{ Name := "cw", Roles := [InstanceGroupRoleNode] }]
        InstanceGroupRoleNode :=
  roleFilter_semantics.1 _ InstanceGroupRoleNode
    { Name := "cw", Roles := [InstanceGroupRoleNode] } (by decide) (by decide)

/-- C8 counterexample: on a GCE cluster at Kubernetes 1.30 and a worker
instance group (no API server, no version gate), NewConfig still copies the
GCE node-tagging fields, refuting the claim that they are set only under a
capability gate. -/
theorem NewConfig_gce_ungated_counterexample :
    InstanceGroup.HasAPIServer workerIG = false ∧
      Cluster.IsKubernetesLT gceCluster 1 24 = false ∧
      (NewConfig gceCluster workerIG).1.NodeTags = some "gce-node-tag" ∧
      (NewConfig gceCluster workerIG).1.Multizone = some true := by
  refine ⟨by decide, by decide, rfl, rfl⟩

/-- C8 (amended): the AWS security-group-suppression fields are copied only
when the AWS provider block is present and the instance group hosts an API
server or the Kubernetes version is below 1.24; the GCE node-tagging fields
are copied whenever the GCE provider block is present, with no capability
gate. -/
theorem NewConfig_provider_fields_gating (cluster : Cluster)
    (instanceGroup : InstanceGroup) :
    ((NewConfig cluster instanceGroup).1.DisableSecurityGroupIngress,
      (NewConfig cluster instanceGroup).1.ElbSecurityGroup,
      (NewConfig cluster instanceGroup).1.NodeIPFamilies) =
      (match cluster.Spec.CloudProvider.AWS with
       | some a =>
         if instanceGroup.HasAPIServer || cluster.IsKubernetesLT 1 24 then
           (a.DisableSecurityGroupIngress, a.ElbSecurityGroup,
             a.NodeIPFamilies)
         else (none, none, [])
       | none => (none, none, [])) ∧
    ((NewConfig cluster instanceGroup).1.Multizone,
      (NewConfig cluster instanceGroup).1.NodeTags,
      Config.NodeInstancePrefix (NewConfig cluster instanceGroup).1) =
      (match cluster.Spec.CloudProvider.GCE with
       | some g => (g.Multizone, g.NodeTags, GCESpec.NodeInstancePrefix g)
       | none => (none, none, none)) := by
  constructor
  · cases hA : cluster.Spec.CloudProvider.AWS with
    | none => simp [NewConfig, hA]
    | some a =>
      by_cases hg :
          (instanceGroup.HasAPIServer || cluster.IsKubernetesLT 1 24) = true
      · simp [NewConfig, hA, hg]
      · simp [NewConfig, hA, Bool.eq_false_iff.mpr hg]
  · cases hG : cluster.Spec.CloudProvider.GCE with
    | none => simp [NewConfig, hG]
    | some g =>
      obtain ⟨mz, nt, nip⟩ := g
      simp [NewConfig, hG]

/-- C9: NewConfig does not mutate its inputs: in the state-passing rendering
of the Go code, the cluster and instance group after the call equal the
inputs, the outputs agree with the pure NewConfig, and each role filter
returns its backing slice unchanged (the Roles assignments hit only the
loop-variable copies placed in the output). -/
theorem NewConfig_preserves_inputs :
    (∀ (cluster : Cluster) (instanceGroup : InstanceGroup),
        (NewConfigSt cluster instanceGroup).1 = (cluster, instanceGroup) ∧
          (NewConfigSt cluster instanceGroup).2 =
            NewConfig cluster instanceGroup) ∧
    (∀ (l : List HookSpec) (role : InstanceGroupRole),
        (filterHooksSt l role).1 = l) ∧
    (∀ (l : List FileAssetSpec) (role : InstanceGroupRole),
        (filterFileAssetsSt l role).1 = l) :=
  ⟨fun c ig => ⟨NewConfigSt_fst c ig, NewConfigSt_snd c ig⟩,
    filterHooksSt_fst, filterFileAssetsSt_fst⟩

/-- C10 counterexample: an instance group whose update policy is explicitly
the empty string yields an empty UpdatePolicy in the Config, refuting the
claim that UpdatePolicy is never left empty. -/
theorem NewConfig_updatePolicy_counterexample :
    emptyPolicyIG.Spec.UpdatePolicy = some "" ∧
      (NewConfig emptyCluster emptyPolicyIG).1.UpdatePolicy = "" :=
  ⟨rfl, rfl⟩

/-- C10 (amended): UpdatePolicy is resolved by the three-level fallback
(instance group, then cluster, then the automatic policy), and is nonempty
whenever every explicitly set policy among those two is nonempty — in
particular when neither is set. -/
theorem NewConfig_updatePolicy_fallback (cluster : Cluster)
    (instanceGroup : InstanceGroup) :
    (NewConfig cluster instanceGroup).1.UpdatePolicy =
      (match instanceGroup.Spec.UpdatePolicy with
       | some p => p
       | none =>
         match cluster.Spec.UpdatePolicy with
         | some p => p
         | none => UpdatePolicyAutomatic) ∧
    ((∀ p, instanceGroup.Spec.UpdatePolicy = some p → p ≠ "") →
      (∀ p, cluster.Spec.UpdatePolicy = some p → p ≠ "") →
      (NewConfig cluster instanceGroup).1.UpdatePolicy ≠ "") := by
  have h1 : (NewConfig cluster instanceGroup).1.UpdatePolicy =
      (match instanceGroup.Spec.UpdatePolicy with
       | some p => p
       | none =>
         match cluster.Spec.UpdatePolicy with
         | some p => p
         | none => UpdatePolicyAutomatic) := rfl
  refine ⟨h1, ?_⟩
  intro hig hc
  rw [h1]
  cases hpi : instanceGroup.Spec.UpdatePolicy with
  | some p => simpa using hig p hpi
  | none =>
    cases hpc : cluster.Spec.UpdatePolicy with
    | some p => simpa using hc p hpc
    | none => simp [UpdatePolicyAutomatic]

/-- C10 witness: with neither policy set, the resolved update policy is
nonempty. -/
theorem NewConfig_updatePolicy_fallback_witness :
    (NewConfig emptyCluster workerIG).1.UpdatePolicy ≠ "" :=
  (NewConfig_updatePolicy_fallback emptyCluster workerIG).2
    (fun p hp => by simp [workerIG] at hp)
    (fun p hp => by simp [emptyCluster] at hp)
